import Mathlib

/-!
# TheUdaanApp — verification of the real-time vehicle-tracking core

Shallow embedding of the tracking pipeline of the TheUdaanApp repository:
the coordinate projector and viewport controller of the Map component, the
`BusTrackingWebSocket` live transport, and the polling fallback that feeds
the fleet state store.  Numeric coordinates are modelled as exact rationals;
the JavaScript sources use only decimal literals and powers of two at these
points, so the rational model is exact.
-/

namespace UdaanApp

/-! ## Coordinate projector (Map component)

The fixed geographic bounding box and the base equirectangular projection
`latLngToPixel`, plus the zoom-compensated `getMarkerPosition` of the Map
component. -/

/-- A geographic coordinate pair. -/
structure LatLng where
  lat : ℚ
  lng : ℚ
deriving DecidableEq

/-- A pixel position on the drawing surface. -/
structure Pixel where
  x : ℚ
  y : ℚ
deriving DecidableEq

def BOUNDS_minLat : ℚ := 40.700
def BOUNDS_maxLat : ℚ := 40.800
def BOUNDS_minLng : ℚ := -74.020
def BOUNDS_maxLng : ℚ := -73.940

/-- Base projection: `x = (lng - minLng)/(maxLng - minLng) * mapWidth`,
`y = (maxLat - lat)/(maxLat - minLat) * mapHeight`. -/
def latLngToPixel (lat lng mapWidth mapHeight : ℚ) : Pixel :=
  { x := ((lng - BOUNDS_minLng) / (BOUNDS_maxLng - BOUNDS_minLng)) * mapWidth
    y := ((BOUNDS_maxLat - lat) / (BOUNDS_maxLat - BOUNDS_minLat)) * mapHeight }

/-- The Map component's initial/default center (New York City). -/
def defaultCenter : LatLng := { lat := 40.7128, lng := -74.0060 }

/-- `Math.pow(2, zoomLevel - 10)`; exact on integer zoom levels. -/
def zoomFactor (zoomLevel : ℤ) : ℚ := 2 ^ (zoomLevel - 10)

/-- `getMarkerPosition` of the Map component: offsets the queried point by the
center's displacement from the default center, scaled by the zoom factor, and
then applies the base projection. -/
def getMarkerPosition (mapCenter : LatLng) (zoomLevel : ℤ)
    (mapWidth mapHeight : ℚ) (lat lng : ℚ) : Pixel :=
  latLngToPixel
    (lat - (mapCenter.lat - 40.7128) / zoomFactor zoomLevel)
    (lng - (mapCenter.lng - (-74.0060)) / zoomFactor zoomLevel)
    mapWidth mapHeight

theorem zoomFactor_ten : zoomFactor 10 = 1 := by
  norm_num [zoomFactor]

/-- C3 (amended): at the reference zoom level 10, projecting the point whose
coordinates equal the current center `c` yields, for every `c`, the fixed
pixel position `(0.175 * width, 0.872 * height)` — the base projection of the
default center `(40.7128, -74.0060)` — not the geometric center of the
viewport. -/
theorem c3_center_at_reference_zoom (c : LatLng) (w h : ℚ) :
    getMarkerPosition c 10 w h c.lat c.lng
        = latLngToPixel defaultCenter.lat defaultCenter.lng w h ∧
    getMarkerPosition c 10 w h c.lat c.lng = { x := 7/40 * w, y := 109/125 * h } := by
  constructor <;>
    · simp only [getMarkerPosition, latLngToPixel, zoomFactor_ten, defaultCenter,
        BOUNDS_minLat, BOUNDS_maxLat, BOUNDS_minLng, BOUNDS_maxLng, Pixel.mk.injEq]
      constructor <;> ring_nf

/-- C3 counterexample: with center equal to the default center, zoom 10 (which
lies in [8,18] and is the reference zoom), and an 800×600 viewport, the point
equal to the center projects to `(140, 523.2)`, far from the geometric center
`(400, 300)` — off by 260 pixels in x, well beyond any rounding tolerance. -/
theorem c3_counterexample :
    (8 ≤ (10 : ℤ) ∧ (10 : ℤ) ≤ 18) ∧
    getMarkerPosition defaultCenter 10 800 600 defaultCenter.lat defaultCenter.lng
        = { x := 140, y := 2616/5 } ∧
    ¬ (|(getMarkerPosition defaultCenter 10 800 600
          defaultCenter.lat defaultCenter.lng).x - 800 / 2| ≤ 1 ∧
       |(getMarkerPosition defaultCenter 10 800 600
          defaultCenter.lat defaultCenter.lng).y - 600 / 2| ≤ 1) := by
  refine ⟨⟨by norm_num, by norm_num⟩, ?_, ?_⟩ <;>
    · simp only [getMarkerPosition, latLngToPixel, zoomFactor_ten, defaultCenter,
        BOUNDS_minLat, BOUNDS_maxLat, BOUNDS_minLng, BOUNDS_maxLng, Pixel.mk.injEq]
      norm_num

/-! ## Data model (API service types) -/

/-- Occupancy level of a vehicle, ordered low < medium < high. -/
inductive Occupancy
  | low
  | medium
  | high
deriving DecidableEq

/-- The `BusLocation` interface of the API service. -/
structure BusLocation where
  id : String
  routeNumber : String
  lat : ℚ
  lng : ℚ
  direction : String
  occupancy : Occupancy
  nextStop : String
  estimatedArrival : String
  vehicleNumber : Option String := none
  speed : Option ℚ := none
  delay : Option ℚ := none
deriving DecidableEq

/-- One entry of a stop's `nextArrivals` list. -/
structure NextArrival where
  route : String
  direction : String
  eta : String
  occupancy : Occupancy
deriving DecidableEq

/-- The `Stop` interface of the API service. -/
structure Stop where
  id : String
  name : String
  lat : ℚ
  lng : ℚ
  routes : List String
  nextArrivals : List NextArrival
  facilities : List String
deriving DecidableEq

/-! ## Live Transport: `BusTrackingWebSocket`

The class keeps a nullable `WebSocket` handle, a reconnect-attempt counter, a
maximum of 5 attempts and a base delay of 1000 ms.  We record its observable
effects — wire sends, callback invocations, and scheduled `setTimeout`
reconnect callbacks — in the state.  The source never stores the timer ids
returned by `setTimeout`, so no operation of the class can clear a pending
timer. -/

/-- `WebSocket.readyState`. -/
inductive ReadyState
  | connecting
  | opened
  | closing
  | closed
deriving DecidableEq

/-- A browser `WebSocket` handle: the URL it was created with, and its state. -/
structure Socket where
  url : String
  readyState : ReadyState
deriving DecidableEq

/-- Messages the client sends: only `{ type: "subscribe", data: [...] }`. -/
inductive ClientMessage
  | subscribe (data : List String)
deriving DecidableEq

/-- Parsed inbound messages, tagged by their `type` field. -/
inductive ServerMessage
  | busUpdate (data : List BusLocation)
  | stopUpdate (data : List Stop)
  | error (message : String)
  | unknown (type : String)
deriving DecidableEq

/-- State of one `BusTrackingWebSocket` instance together with its observable
effect history. -/
structure BusTrackingWebSocket where
  ws : Option Socket := none
  reconnectAttempts : Nat := 0
  /-- messages actually written to the wire by `send` -/
  sent : List ClientMessage := []
  /-- arguments of every `onError` callback invocation, in order -/
  onErrorCalls : List String := []
  /-- arguments of every `onBusUpdate` callback invocation, in order -/
  onBusUpdateCalls : List (List BusLocation) := []
  /-- arguments of every `onStopUpdate` callback invocation, in order -/
  onStopUpdateCalls : List (List Stop) := []
  /-- delays (ms) of `setTimeout` reconnect callbacks scheduled and not yet
  fired; the source keeps no handle to them, so nothing can clear them -/
  pendingReconnectTimers : List Nat := []
deriving DecidableEq

def maxReconnectAttempts : Nat := 5

def reconnectDelay : Nat := 1000

/-- `apiConfig.wsURL` (default configuration). -/
def wsURL : String := "ws://localhost:3001/ws"

/-- JavaScript template-literal interpolation of `string | null`:
`null` prints as the four characters `"null"`. -/
def tokenString : Option String → String
  | some t => t
  | none => "null"

/-- The URL passed to `new WebSocket`: `` `${wsUrl}?token=${token}` ``. -/
def connectUrl (token : Option String) : String :=
  wsURL ++ "?token=" ++ tokenString token

/-- The constructor: stores the three callbacks; `ws` stays `null`, the
counter stays 0, and nothing else happens. -/
def mkBusTrackingWebSocket : BusTrackingWebSocket := {}

/-- `connect()`: reads the auth token (modelled as the `token` argument) and
creates a fresh `WebSocket` on `connectUrl token`; a newly created browser
socket is in the CONNECTING state. -/
def connect (token : Option String) (s : BusTrackingWebSocket) :
    BusTrackingWebSocket :=
  { s with ws := some { url := connectUrl token, readyState := .connecting } }

/-- `send(message)`: writes to the wire only when a socket exists and its
`readyState` is OPEN; otherwise the message is silently dropped. -/
def send (m : ClientMessage) (s : BusTrackingWebSocket) :
    BusTrackingWebSocket :=
  match s.ws with
  | some sock =>
      if sock.readyState = .opened then { s with sent := s.sent ++ [m] } else s
  | none => s

/-- The socket's open event: the socket becomes OPEN, then the `onopen`
handler runs — it zeroes `reconnectAttempts` and sends the subscription. -/
def fireOpen (s : BusTrackingWebSocket) : BusTrackingWebSocket :=
  match s.ws with
  | some sock =>
      send (.subscribe ["buses", "stops"])
        { s with ws := some { sock with readyState := .opened }
                 reconnectAttempts := 0 }
  | none => s

/-- `handleMessage(message)`: routes each tag to exactly one callback; an
unknown tag is logged and otherwise ignored. -/
def handleMessage (m : ServerMessage) (s : BusTrackingWebSocket) :
    BusTrackingWebSocket :=
  match m with
  | .busUpdate data => { s with onBusUpdateCalls := s.onBusUpdateCalls ++ [data] }
  | .stopUpdate data => { s with onStopUpdateCalls := s.onStopUpdateCalls ++ [data] }
  | .error message => { s with onErrorCalls := s.onErrorCalls ++ [message] }
  | .unknown _ => s

/-- A message event: delivered only on an existing OPEN socket, where the
`onmessage` handler parses it and calls `handleMessage`. -/
def fireMessage (m : ServerMessage) (s : BusTrackingWebSocket) :
    BusTrackingWebSocket :=
  match s.ws with
  | some sock => if sock.readyState = .opened then handleMessage m s else s
  | none => s

/-- `reconnect()`: while the counter is below the maximum, increments it and
schedules `connect` via `setTimeout` after `reconnectDelay * attempts` ms;
once the counter has reached the maximum it does nothing at all — no timer,
no state change, and no error callback. -/
def reconnect (s : BusTrackingWebSocket) : BusTrackingWebSocket :=
  if s.reconnectAttempts < maxReconnectAttempts then
    { s with reconnectAttempts := s.reconnectAttempts + 1
             pendingReconnectTimers := s.pendingReconnectTimers
               ++ [reconnectDelay * (s.reconnectAttempts + 1)] }
  else s

/-- The socket's close event: the socket becomes CLOSED and the `onclose`
handler runs, which calls `reconnect`. -/
def fireClose (s : BusTrackingWebSocket) : BusTrackingWebSocket :=
  match s.ws with
  | some sock => reconnect { s with ws := some { sock with readyState := .closed } }
  | none => s

/-- One scheduled reconnect timer fires: its callback is `this.connect()`,
reading whatever token is in storage at that moment. -/
def fireReconnectTimer (token : Option String) (s : BusTrackingWebSocket) :
    BusTrackingWebSocket :=
  match s.pendingReconnectTimers with
  | [] => s
  | _ :: rest => connect token { s with pendingReconnectTimers := rest }

/-- `disconnect()`: if a socket exists, closes it and nulls the field;
otherwise does nothing.  It touches neither the counter nor the pending
timers (the source has no handle to cancel them with). -/
def disconnect (s : BusTrackingWebSocket) : BusTrackingWebSocket :=
  match s.ws with
  | some _ => { s with ws := none }
  | none => s

/-- One full failed reconnect cycle: the socket drops (close event runs the
`onclose` handler, i.e. `reconnect`), and the scheduled timer later fires,
attempting a new connection that will drop again. -/
def reconnectCycle (token : Option String) (s : BusTrackingWebSocket) :
    BusTrackingWebSocket :=
  fireReconnectTimer token (fireClose s)

/-- A transport that connects and opens, then suffers five failed reconnect
cycles followed by a sixth unexpected closure. -/
def sixDropsRun : BusTrackingWebSocket :=
  fireClose ((reconnectCycle none)^[5] (fireOpen (connect none mkBusTrackingWebSocket)))

/-- A transport that connected, opened, and then dropped once: exactly one
reconnect timer is pending. -/
def droppedOnce : BusTrackingWebSocket :=
  fireClose (fireOpen (connect none mkBusTrackingWebSocket))

/-- C1 (amended): while the counter is below the maximum, each reconnect cycle
increments it by exactly one and schedules its attempt after
`reconnectDelay * attemptNumber` ms, a delay that strictly increases from one
cycle to the next; once the counter reaches the maximum, a further closure
changes nothing — no new attempt is scheduled, and also no terminal error is
surfaced to the caller (the transport goes silent instead of reporting). -/
theorem c1_reconnect_linear_backoff (s : BusTrackingWebSocket)
    (h : s.reconnectAttempts < maxReconnectAttempts) :
    (reconnect s).reconnectAttempts = s.reconnectAttempts + 1 ∧
    (reconnect s).pendingReconnectTimers
      = s.pendingReconnectTimers ++ [reconnectDelay * (s.reconnectAttempts + 1)] ∧
    reconnectDelay * (s.reconnectAttempts + 1)
      < reconnectDelay * (s.reconnectAttempts + 2) ∧
    (∀ t : BusTrackingWebSocket, maxReconnectAttempts ≤ t.reconnectAttempts →
      reconnect t = t ∧ (reconnect t).onErrorCalls = t.onErrorCalls) := by
  refine ⟨by simp [reconnect, h], by simp [reconnect, h], ?_, ?_⟩
  · simp only [reconnectDelay]
    omega
  · intro t ht
    have : ¬ t.reconnectAttempts < maxReconnectAttempts := Nat.not_lt.mpr ht
    simp [reconnect, this]

theorem c1_reconnect_linear_backoff_witness :
    mkBusTrackingWebSocket.reconnectAttempts < maxReconnectAttempts ∧
    (reconnect mkBusTrackingWebSocket).reconnectAttempts
        = mkBusTrackingWebSocket.reconnectAttempts + 1 :=
  ⟨by decide, (c1_reconnect_linear_backoff mkBusTrackingWebSocket (by decide)).1⟩

/-- C1 counterexample: after the maximum of five reconnect cycles and a sixth
unexpected closure, the transport has stopped (no pending attempt) but its
`onError` callback was never invoked — the claimed terminal connectivity
error is surfaced zero times, not exactly once. -/
theorem c1_counterexample :
    sixDropsRun.reconnectAttempts = maxReconnectAttempts ∧
    sixDropsRun.pendingReconnectTimers = [] ∧
    sixDropsRun.onErrorCalls = [] ∧
    sixDropsRun.onErrorCalls.length ≠ 1 := by
  decide

/-- C4 (amended): `disconnect` is idempotent and safe to call in every state,
and afterwards the socket handle is null; but it does not cancel pending
reconnection timers — they survive it unchanged. -/
theorem c4_disconnect_idempotent (s : BusTrackingWebSocket) :
    disconnect (disconnect s) = disconnect s ∧
    (disconnect s).ws = none ∧
    (disconnect s).pendingReconnectTimers = s.pendingReconnectTimers := by
  obtain ⟨ws, attempts, sent, errs, bs, sts, timers⟩ := s
  cases ws <;> simp [disconnect]

/-- C4 counterexample: with one reconnect timer pending, `disconnect` leaves
the timer pending, and when it fires it opens a fresh connection — a further
connection attempt does occur after `disconnect` returned. -/
theorem c4_counterexample :
    droppedOnce.pendingReconnectTimers = [reconnectDelay * 1] ∧
    (disconnect droppedOnce).pendingReconnectTimers = [reconnectDelay * 1] ∧
    (fireReconnectTimer none (disconnect droppedOnce)).ws
        = some { url := connectUrl none, readyState := .connecting } ∧
    ¬ (fireReconnectTimer none (disconnect droppedOnce)).ws = none := by
  decide

/-- C5 (amended): absence of a credential is not an error and does not alter
the connection attempt — `connect` creates a CONNECTING socket either way —
but the bearer-token query parameter is not omitted: with no credential the
URL carries the literal `token=null` (the JavaScript template literal
stringifies the null token). -/
theorem c5_connect_token_parameter (s : BusTrackingWebSocket)
    (token : Option String) :
    connect token s =
      { s with ws := some { url := wsURL ++ "?token=" ++ tokenString token,
                            readyState := .connecting } } ∧
    tokenString none = "null" ∧
    connectUrl none = wsURL ++ "?token=null" := by
  refine ⟨rfl, rfl, by decide⟩

/-- C5 counterexample: with no credential the connection URL is
`ws://localhost:3001/ws?token=null` — it differs from the bare endpoint URL,
so the token query parameter was not omitted. -/
theorem c5_counterexample :
    connectUrl none = "ws://localhost:3001/ws?token=null" ∧
    connectUrl none ≠ wsURL ∧
    (connect none mkBusTrackingWebSocket).ws =
      some { url := "ws://localhost:3001/ws?token=null",
             readyState := .connecting } := by
  decide

/-- C6: whenever the open event fires on an existing socket (the transport
reaches Connected), the handler resets the reconnect-attempt counter to zero
and sends exactly the subscription message
`{ type: "subscribe", data: ["buses","stops"] }`. -/
theorem c6_on_open_subscribes (s : BusTrackingWebSocket) (sock : Socket)
    (h : s.ws = some sock) :
    (fireOpen s).reconnectAttempts = 0 ∧
    (fireOpen s).sent = s.sent ++ [ClientMessage.subscribe ["buses", "stops"]] := by
  simp [fireOpen, h, send]

theorem c6_on_open_subscribes_witness :
    (connect none mkBusTrackingWebSocket).ws
        = some { url := connectUrl none, readyState := .connecting } ∧
    ((fireOpen (connect none mkBusTrackingWebSocket)).reconnectAttempts = 0 ∧
     (fireOpen (connect none mkBusTrackingWebSocket)).sent
        = (connect none mkBusTrackingWebSocket).sent
            ++ [ClientMessage.subscribe ["buses", "stops"]]) :=
  ⟨rfl, c6_on_open_subscribes (connect none mkBusTrackingWebSocket) _ rfl⟩

/-! ## Map component: fleet state store, polling fallback, viewport controller

The Map component's React state: `buses` and `stops` (the fleet state store),
`mapCenter`/`zoomLevel`/`mapDimensions` (the viewport), plus the loading flag
of the locate action and the toast stream.  Both the WebSocket callback and
the poll merge a vehicle batch by `setBuses(updatedBuses)` — a whole-batch
replacement of the collection. -/

structure MapModel where
  buses : List BusLocation := []
  stops : List Stop := []
  mapCenter : LatLng := { lat := 40.7128, lng := -74.0060 }
  zoomLevel : ℤ := 13
  mapWidth : ℚ := 800
  mapHeight : ℚ := 600
  locationLoading : Bool := false
  /-- whether the 10 s polling interval is currently installed -/
  intervalActive : Bool := false
  /-- user-facing toast messages, in emission order -/
  toasts : List String := []
deriving DecidableEq

/-- `setBuses(batch)` — the single merge entry point for vehicles: replaces
the whole collection with the batch. -/
def setBuses (batch : List BusLocation) (m : MapModel) : MapModel :=
  { m with buses := batch }

/-- `setStops(batch)` — same whole-batch replacement for stops. -/
def setStops (batch : List Stop) (m : MapModel) : MapModel :=
  { m with stops := batch }

/-- The geographic window the poll requests, derived from the current center:
(north, south, east, west) = center ± 0.05. -/
def pollBounds (m : MapModel) : ℚ × ℚ × ℚ × ℚ :=
  (m.mapCenter.lat + 0.05, m.mapCenter.lat - 0.05,
   m.mapCenter.lng + 0.05, m.mapCenter.lng - 0.05)

/-- One tick of the 10-second polling interval, parameterised by the outcome
of `busAPI.getLiveBuses(bounds)`: on success the batch replaces the vehicle
collection; on rejection the `catch` block only logs — the state is left
untouched and no exception escapes (the tick is a total function into
`MapModel`, with no error outcome). -/
def pollTick (result : Except String (List BusLocation)) (m : MapModel) :
    MapModel :=
  match result with
  | .ok updatedBuses => setBuses updatedBuses m
  | .error _ => m

/-- The geolocation failure causes distinguished by `error.code`. -/
inductive GeolocationError
  | permissionDenied
  | positionUnavailable
  | timeout
  | unknownError
deriving DecidableEq

/-- The `switch (error.code)` of `getCurrentLocation`'s failure callback. -/
def geolocationErrorMessage : GeolocationError → String
  | .permissionDenied => "Location access denied by user"
  | .positionUnavailable => "Location information unavailable"
  | .timeout => "Location request timed out"
  | .unknownError => "An unknown error occurred while retrieving location"

/-- The fixed fallback center used on geolocation failure. -/
def fallbackLocation : LatLng := { lat := 40.7128, lng := -74.0060 }

/-- The failure callback of `getCurrentLocation`: clears the loading flag,
raises the classified error toast, recenters on the fallback location, and
raises the advisory toast. -/
def handleGeolocationError (e : GeolocationError) (m : MapModel) : MapModel :=
  { m with locationLoading := false
           toasts := m.toasts ++ [geolocationErrorMessage e,
                                  "Using default location: New York City"]
           mapCenter := fallbackLocation }

/-- `handleZoomIn`: `setZoomLevel(prev => Math.min(prev + 1, 18))`. -/
def handleZoomIn (zoomLevel : ℤ) : ℤ := min (zoomLevel + 1) 18

/-- `handleZoomOut`: `setZoomLevel(prev => Math.max(prev - 1, 8))`. -/
def handleZoomOut (zoomLevel : ℤ) : ℤ := max (zoomLevel - 1) 8

inductive ZoomAction
  | zoomIn
  | zoomOut
deriving DecidableEq

def applyZoomAction : ZoomAction → ℤ → ℤ
  | .zoomIn, z => handleZoomIn z
  | .zoomOut, z => handleZoomOut z

/-- `useState(13)` — the initial zoom level. -/
def initialZoomLevel : ℤ := 13

/-- The zoom level reached from the initial level by a sequence of user
zoom-in / zoom-out actions. -/
def runZoomActions (acts : List ZoomAction) : ℤ :=
  acts.foldl (fun z a => applyZoomAction a z) initialZoomLevel

/-! ## The Map component's WebSocket-setup effect

The effect body constructs a `BusTrackingWebSocket`, installs the 10-second
polling interval, and stores the instance in component state; its cleanup
clears the interval and disconnects.  The class method `connect()` exists but
the component never issues it. -/

inductive MapCmd
  | createWebSocket
  | startPollingInterval
  | setWsConnection
  | connectWebSocket (token : Option String)
  | clearPollingInterval
  | disconnectWebSocket
deriving DecidableEq

/-- The Map component plus the transport instance it owns. -/
structure MapSystem where
  map : MapModel := {}
  wsState : Option BusTrackingWebSocket := none
  wsConnectionSet : Bool := false
deriving DecidableEq

def runMapCmd (s : MapSystem) : MapCmd → MapSystem
  | .createWebSocket => { s with wsState := some mkBusTrackingWebSocket }
  | .startPollingInterval => { s with map := { s.map with intervalActive := true } }
  | .setWsConnection => { s with wsConnectionSet := true }
  | .connectWebSocket token => { s with wsState := Option.map (connect token) s.wsState }
  | .clearPollingInterval => { s with map := { s.map with intervalActive := false } }
  | .disconnectWebSocket => { s with wsState := Option.map disconnect s.wsState }

/-- The statements the WebSocket-setup effect of the Map component executes,
in order: `new BusTrackingWebSocket(...)`, `setInterval(..., 10000)`,
`setWsConnection(ws)`.  No `connect()` appears. -/
def mapSetupCmds : List MapCmd :=
  [.createWebSocket, .startPollingInterval, .setWsConnection]

/-- The cleanup function of the same effect: `clearInterval(updateInterval)`
then `ws.disconnect()`. -/
def mapCleanupCmds : List MapCmd :=
  [.clearPollingInterval, .disconnectWebSocket]

def runMapCmds (cs : List MapCmd) (s : MapSystem) : MapSystem :=
  cs.foldl runMapCmd s

/-- Poll ticks applied to the whole system: each touches only the map state. -/
def runPollTicks (results : List (Except String (List BusLocation)))
    (s : MapSystem) : MapSystem :=
  results.foldl (fun s r => { s with map := pollTick r s.map }) s

/-- The vehicle collection left by a sequence of poll outcomes: the batch of
the last successful poll, or the prior contents when every poll failed. -/
def pollsResult : List (Except String (List BusLocation)) → List BusLocation →
    List BusLocation
  | [], b => b
  | .ok batch :: rest, _ => pollsResult rest batch
  | .error _ :: rest, b => pollsResult rest b

/-- A demonstration vehicle differing only in id and route. -/
def demoBus (i : String) (rn : String) : BusLocation :=
  { id := i, routeNumber := rn, lat := 40.7128, lng := -74.0060,
    direction := "Downtown", occupancy := .medium,
    nextStop := "Times Square", estimatedArrival := "3 min" }

theorem runPollTicks_wsState (polls : List (Except String (List BusLocation)))
    (s : MapSystem) : (runPollTicks polls s).wsState = s.wsState := by
  induction polls generalizing s with
  | nil => rfl
  | cons p rest ih =>
      have h : runPollTicks (p :: rest) s
          = runPollTicks rest { s with map := pollTick p s.map } := rfl
      rw [h, ih]

theorem runPollTicks_buses (polls : List (Except String (List BusLocation)))
    (s : MapSystem) :
    (runPollTicks polls s).map.buses = pollsResult polls s.map.buses := by
  induction polls generalizing s with
  | nil => rfl
  | cons p rest ih =>
      have h : runPollTicks (p :: rest) s
          = runPollTicks rest { s with map := pollTick p s.map } := rfl
      rw [h, ih]
      cases p <;> rfl

theorem fireMessages_without_socket (msgs : List ServerMessage)
    (w : BusTrackingWebSocket) (h : w.ws = none) :
    msgs.foldl (fun w m => fireMessage m w) w = w := by
  induction msgs with
  | nil => rfl
  | cons m rest ih =>
      have hm : fireMessage m w = w := by simp [fireMessage, h]
      simp only [List.foldl_cons, hm, ih]

theorem zoomActions_foldl_bounds (acts : List ZoomAction) (z : ℤ)
    (h8 : 8 ≤ z) (h18 : z ≤ 18) :
    8 ≤ acts.foldl (fun z a => applyZoomAction a z) z ∧
      acts.foldl (fun z a => applyZoomAction a z) z ≤ 18 := by
  induction acts generalizing z with
  | nil => exact ⟨h8, h18⟩
  | cons a rest ih =>
      refine ih (applyZoomAction a z) ?_ ?_ <;>
        cases a <;>
          simp only [applyZoomAction, handleZoomIn, handleZoomOut] <;>
            omega

/-- C2: merging a vehicle batch into the store replaces the entire collection
with the batch's contents: afterwards the store holds exactly the batch's
vehicles, whatever was there before; in particular, after consecutive merges
of `b1` then `b2`, a vehicle of `b1` that is absent from `b2` is gone. -/
theorem c2_merge_replaces (m : MapModel) (b1 b2 : List BusLocation) :
    (setBuses b2 m).buses = b2 ∧
    (∀ v : BusLocation, v ∈ (setBuses b2 m).buses ↔ v ∈ b2) ∧
    (setBuses b2 (setBuses b1 m)).buses = b2 ∧
    (∀ v : BusLocation, v ∈ b1 → v ∉ b2 →
      v ∉ (setBuses b2 (setBuses b1 m)).buses) :=
  ⟨rfl, fun _ => Iff.rfl, rfl, fun _ _ hv2 => hv2⟩

theorem c2_merge_replaces_witness :
    (setBuses [demoBus "1" "42", demoBus "3" "23", demoBus "4" "7"]
        (setBuses [demoBus "1" "42", demoBus "2" "15", demoBus "3" "23"]
          {})).buses
      = [demoBus "1" "42", demoBus "3" "23", demoBus "4" "7"] ∧
    demoBus "2" "15" ∉ (setBuses [demoBus "1" "42", demoBus "3" "23",
        demoBus "4" "7"]
        (setBuses [demoBus "1" "42", demoBus "2" "15", demoBus "3" "23"]
          {})).buses :=
  ⟨(c2_merge_replaces {} [demoBus "1" "42", demoBus "2" "15", demoBus "3" "23"]
      [demoBus "1" "42", demoBus "3" "23", demoBus "4" "7"]).2.2.1,
   (c2_merge_replaces {} [demoBus "1" "42", demoBus "2" "15", demoBus "3" "23"]
      [demoBus "1" "42", demoBus "3" "23", demoBus "4" "7"]).2.2.2
      (demoBus "2" "15") (by simp [demoBus]) (by simp [demoBus])⟩

/-- C7: a geolocation failure is classified by cause into four pairwise
distinct user-facing messages, and every cause recenters the viewport on the
fixed default center (40.7128, -74.0060); permission denial and timeout give
different advisory messages but the same default center. -/
theorem c7_geolocation_failure (m : MapModel) :
    (∀ e, (handleGeolocationError e m).mapCenter = fallbackLocation) ∧
    fallbackLocation = { lat := 40.7128, lng := -74.0060 } ∧
    ([GeolocationError.permissionDenied, .positionUnavailable, .timeout,
        .unknownError].map geolocationErrorMessage).Pairwise (· ≠ ·) ∧
    geolocationErrorMessage .permissionDenied
        ≠ geolocationErrorMessage .timeout ∧
    (handleGeolocationError .permissionDenied m).mapCenter
        = (handleGeolocationError .timeout m).mapCenter ∧
    (∀ e, (handleGeolocationError e m).toasts
        = m.toasts ++ [geolocationErrorMessage e,
                       "Using default location: New York City"]) := by
  exact ⟨fun _ => rfl, by norm_num [fallbackLocation], by decide, by decide,
    rfl, fun _ => rfl⟩

/-- C8: a failed poll tick leaves the previous vehicle and stop contents (and
the whole map state, interval flag included) unchanged, and a subsequent tick
behaves exactly as if the failure had not happened; the tick is a total
function into the state — the caught rejection never escapes to the caller. -/
theorem c8_failed_poll_is_noop (e : String) (m : MapModel) :
    pollTick (.error e) m = m ∧
    (pollTick (.error e) m).buses = m.buses ∧
    (pollTick (.error e) m).stops = m.stops ∧
    (pollTick (.error e) m).intervalActive = m.intervalActive ∧
    (∀ r, pollTick r (pollTick (.error e) m) = pollTick r m) :=
  ⟨rfl, rfl, rfl, rfl, fun _ => rfl⟩

/-- C9: from the initial zoom level 13, every sequence of zoom-in / zoom-out
actions keeps the level within [8, 18]; each step from a reachable level
changes it by at most 1; and zoom-in at 18 and zoom-out at 8 leave the level
unchanged. -/
theorem c9_zoom_clamped :
    (∀ acts, 8 ≤ runZoomActions acts ∧ runZoomActions acts ≤ 18) ∧
    (∀ acts a, |applyZoomAction a (runZoomActions acts) - runZoomActions acts| ≤ 1) ∧
    handleZoomIn 18 = 18 ∧
    handleZoomOut 8 = 8 := by
  have hb : ∀ acts, 8 ≤ runZoomActions acts ∧ runZoomActions acts ≤ 18 :=
    fun acts => zoomActions_foldl_bounds acts 13 (by norm_num) (by norm_num)
  refine ⟨hb, ?_, by decide, by decide⟩
  intro acts a
  obtain ⟨h8, h18⟩ := hb acts
  rw [abs_le]
  cases a <;>
    simp only [applyZoomAction, handleZoomIn, handleZoomOut] <;>
      constructor <;> omega

/-- C10: the constructor performs no connection attempt — the socket field is
null, the counter zero, nothing sent and no timer pending; the Map setup
effect never issues `connect()`, so after setup, and still after any number
of poll ticks, the stored transport equals the freshly constructed instance;
a null-socket transport delivers no inbound message whatsoever, so no push
update ever reaches the bus callback; and the vehicle collection after the
poll ticks is a function of the initial contents and the poll outcomes
alone. -/
theorem c10_transport_never_connected :
    (mkBusTrackingWebSocket.ws = none ∧
     mkBusTrackingWebSocket.reconnectAttempts = 0 ∧
     mkBusTrackingWebSocket.sent = [] ∧
     mkBusTrackingWebSocket.pendingReconnectTimers = []) ∧
    (∀ token, MapCmd.connectWebSocket token ∉ mapSetupCmds) ∧
    (runMapCmds mapSetupCmds {}).wsState = some mkBusTrackingWebSocket ∧
    (∀ polls, (runPollTicks polls (runMapCmds mapSetupCmds {})).wsState
        = some mkBusTrackingWebSocket) ∧
    (∀ msgs : List ServerMessage,
        msgs.foldl (fun w m => fireMessage m w) mkBusTrackingWebSocket
          = mkBusTrackingWebSocket) ∧
    (∀ polls, (runPollTicks polls (runMapCmds mapSetupCmds {})).map.buses
        = pollsResult polls []) := by
  refine ⟨⟨rfl, rfl, rfl, rfl⟩, ?_, rfl, ?_, ?_, ?_⟩
  · intro token
    simp [mapSetupCmds]
  · intro polls
    rw [runPollTicks_wsState]
    rfl
  · intro msgs
    exact fireMessages_without_socket msgs _ rfl
  · intro polls
    rw [runPollTicks_buses]
    rfl

end UdaanApp
